import Mathlib

/-!
Verification of the tag-based chatbot framework (parentbot.py / teendrugbot.py).

The development shallowly embeds the Python code:

* `_get_tags` builds, for every phrase key of the TAGS table, the pattern
  `r'\b' + phrase.lower() + r'\b'` and calls `re.search` on the lowered
  message.  The regex fragment actually reachable from these patterns is:
  literal characters, `.` (any character except newline) and `\b` (word
  boundary); `parsePat`, `matchToks` and `search` model exactly that
  fragment, over ASCII text (Python's `str.lower` and `\w` agree with
  `Char.toLower` / alphanumeric-or-underscore on ASCII).
* Python's `Counter` is modelled as a function `String → Nat`.
* Python dict-literal construction (later duplicate keys overwrite the
  value but keep the first key's position) is modelled by `dictOfList`.
* The `ChatBot` class is modelled by the structure `Chat σ` (σ is the
  subclass's scratch data, e.g. `self.professor` / `self.drug`); dynamic
  `getattr` dispatch on `on_enter_*` / `respond_from_*` / `finish_*`
  method names becomes `Option`-valued handler tables, a failed `getattr`
  or a failed `assert` becomes an `Except Err` error (the spec's names
  `UnknownState`, `InvalidTransition`, `UnknownFinishManner` label the two
  `AssertionError`s of `go_to_state` and the `AttributeError` of `finish`).
  An exception aborts the call, so on the error branches no updated
  session is produced and the caller's state is unchanged.
* A `respond_from_*` body always ends in exactly one `return`: either a
  `go_to_state`/`finish` call or a plain string (possibly obtained by
  calling a `finish_*` method directly, bypassing `finish`).  That final
  action is reified as `HandlerOut`, which `respond` interprets exactly
  like the Python call would have executed it.
-/

/-- Word characters of the modelled `\b`: ASCII letters, digits, underscore. -/
def isWordChar (c : Char) : Bool := c.isAlphanum || c == '_'

/-- Whether position `i` of `s` holds a word character (out of range: no). -/
def isWordAt (s : List Char) (i : Nat) : Bool :=
  match s[i]? with
  | some c => isWordChar c
  | none => false

/-- Whether the character just before position `i` is a word character. -/
def wordBefore (s : List Char) (i : Nat) : Bool :=
  match i with
  | 0 => false
  | j + 1 => isWordAt s j

/-- Word boundary (`\b`) at position `i`: exactly one side is a word char. -/
def boundaryAt (s : List Char) (i : Nat) : Bool := wordBefore s i != isWordAt s i

/-- Tokens of the regex fragment reachable from `r'\b' + phrase + r'\b'`. -/
inductive Tok where
  | lit (c : Char)
  | anyChar
  | wb

/-- Parse a pattern string into tokens: `\b` is a word boundary, any other
backslash escape is the escaped character itself, `.` matches any character
except newline, everything else is a literal. -/
def parsePat : List Char → List Tok
  | [] => []
  | c :: rest =>
    if c = '\\' then
      match rest with
      | [] => [Tok.lit c]
      | d :: rest2 =>
        if d = 'b' then Tok.wb :: parsePat rest2 else Tok.lit d :: parsePat rest2
    else if c = '.' then Tok.anyChar :: parsePat rest
    else Tok.lit c :: parsePat rest

/-- Match the token list against `s` starting at position `i`. -/
def matchToks : List Tok → List Char → Nat → Bool
  | [], _, _ => true
  | Tok.lit c :: ts, s, i =>
    match s[i]? with
    | some d => d == c && matchToks ts s (i + 1)
    | none => false
  | Tok.anyChar :: ts, s, i =>
    match s[i]? with
    | some d => d != '\n' && matchToks ts s (i + 1)
    | none => false
  | Tok.wb :: ts, s, i => boundaryAt s i && matchToks ts s i

/-- Model of `re.search`: does the pattern match at some position of `s`? -/
def search (toks : List Tok) (s : List Char) : Bool :=
  (List.range (s.length + 1)).any (fun i => matchToks toks s i)

/-- Model of Python's `str.lower` on ASCII text, as a character list. -/
def strLower (s : String) : List Char := s.toList.map Char.toLower

/-- One phrase test of `_get_tags`:
`re.search(r'\b' + phrase.lower() + r'\b', msg)` where `msg` is the
already-lowered message. -/
def phraseFound (phrase : String) (msg : List Char) : Bool :=
  search (parsePat (('\\' :: 'b' :: strLower phrase) ++ ['\\', 'b'])) msg

/-- Model of `counter.update(tags)`: add the multiplicity of each tag. -/
def counterUpdate (counter : String → Nat) (tags : List String) : String → Nat :=
  fun t => counter t + tags.count t

/-- Model of `ChatBot._get_tags`: lower the message once, then for each
phrase of the (already normalized) TAGS table add its tags to the counter
if the `\b`-wrapped lowered phrase is found. -/
def getTags (TAGS : List (String × List String)) (message : String) : String → Nat :=
  let msg := strLower message
  TAGS.foldl
    (fun counter pt => if phraseFound pt.1 msg then counterUpdate counter pt.2 else counter)
    (fun _ => 0)

/-- Membership test `tag in tags` on a Counter: the count is nonzero. -/
def hasTag (tags : String → Nat) (t : String) : Bool := tags t != 0

/-- Literal occurrence predicates, used to state the matching claims. -/
def prefixAt : List Char → List Char → Nat → Bool
  | [], _, _ => true
  | c :: cs, s, i =>
    match s[i]? with
    | some d => d == c && prefixAt cs s (i + 1)
    | none => false

/-- The phrase occurs literally somewhere in `s`. -/
def occursIn (p s : List Char) : Bool :=
  (List.range (s.length + 1)).any (fun i => prefixAt p s i)

/-- The phrase occurs literally at `i` bounded by non-word characters or
the string edges on both sides. -/
def wholeWordAt (p s : List Char) (i : Nat) : Bool :=
  prefixAt p s i && (!(wordBefore s i) && !(isWordAt s (i + p.length)))

/-- The phrase has a whole-word occurrence somewhere in `s`. -/
def wholeWordOccurs (p s : List Char) : Bool :=
  (List.range (s.length + 1)).any (fun i => wholeWordAt p s i)

/-- Python regex metacharacters; a phrase avoiding them is literal text. -/
def metaChars : List Char :=
  ['.', '^', '$', '*', '+', '?', '\x7b', '\x7d', '[', ']', '\\', '|', '(', ')']

/-- No character of the list is a regex metacharacter. -/
def metaFree (l : List Char) : Bool := l.all (fun c => !(metaChars.contains c))

/-- Shapes a TAGS-table value can have in the Python source: a bare tag
string, a list or tuple of tag strings, or anything else. -/
inductive PyVal where
  | pstr (s : String)
  | plist (ts : List String)
  | ptuple (ts : List String)
  | pother
deriving DecidableEq

/-- Fatal errors of the engine.  `unknownState` and `invalidTransition`
are the two `AssertionError`s of `go_to_state`; `unknownFinishManner` is
the `AttributeError` raised by `getattr(self, f'finish_{manner}')`;
`missingHandler` is the `AttributeError` for a missing `on_enter_*` or
`respond_from_*` method; `invalidTagShape` is the `AssertionError` of
`_check_tags`; `keyError` / `attributeError` / `indexError` model the
corresponding Python exceptions in handler bodies and `__init__`. -/
inductive Err where
  | unknownState (s : String)
  | invalidTransition (s : String)
  | unknownFinishManner (m : String)
  | missingHandler (name : String)
  | invalidTagShape (phrase : String)
  | keyError (k : String)
  | attributeError (what : String)
  | indexError
deriving DecidableEq

/-- Python dict-literal construction from a key/value listing: a repeated
key overwrites the stored value but keeps the position of its first
occurrence. -/
def insertDict (acc : List (String × α)) (kv : String × α) : List (String × α) :=
  if acc.any (fun p => p.1 == kv.1) then
    acc.map (fun p => if p.1 == kv.1 then (p.1, kv.2) else p)
  else acc ++ [kv]

/-- Build a Python dict (as an ordered association list) from a listing. -/
def dictOfList (l : List (String × α)) : List (String × α) :=
  l.foldl insertDict []

/-- Model of `ChatBot._check_tags`: a bare string value is promoted to a
singleton list, a list or tuple is kept, anything else raises the
`AssertionError` (the spec's `InvalidTagShape`) at the first bad entry. -/
def checkTags : List (String × PyVal) → Except Err (List (String × List String))
  | [] => Except.ok []
  | (ph, v) :: rest =>
    match v with
    | PyVal.pstr s => (checkTags rest).map (fun T => (ph, [s]) :: T)
    | PyVal.plist ts => (checkTags rest).map (fun T => (ph, ts) :: T)
    | PyVal.ptuple ts => (checkTags rest).map (fun T => (ph, ts) :: T)
    | PyVal.pother => Except.error (Err.invalidTagShape ph)

/-- The single terminal action of a `respond_from_*` body: transition via
`go_to_state`, transition via `finish`, or return a string directly
(which the Python convention forbids but the type system cannot).  Each
variant carries the scratch data as mutated by the handler body. -/
inductive HandlerOut (σ : Type) where
  | goTo (scr : σ) (state : String)
  | finishWith (scr : σ) (manner : String)
  | direct (scr : σ) (resp : String)

/-- Model of a `ChatBot` instance: the declared states, the normalized
TAGS table, the default state, the current state, the subclass scratch
data, and the three method tables reached through `getattr`. -/
structure Chat (σ : Type) where
  STATES : List String
  TAGS : List (String × List String)
  default_state : String
  state : String
  scratch : σ
  onEnter : String → Option (σ → Except Err String)
  respondFrom : String → Option (σ → String → (String → Nat) → HandlerOut σ)
  finishers : String → Option (σ → Except Err String)

/-- Model of `ChatBot.go_to_state`: assert the state is declared, assert
it is not the default state, then run `on_enter_*` and set the state. -/
def go_to_state (b : Chat σ) (state : String) : Except Err (Chat σ × String) :=
  if !(b.STATES.contains state) then Except.error (Err.unknownState state)
  else if state == b.default_state then Except.error (Err.invalidTransition state)
  else
    match b.onEnter state with
    | none => Except.error (Err.missingHandler ("on_enter_" ++ state))
    | some f => (f b.scratch).map (fun resp => ({ b with state := state }, resp))

/-- Model of `ChatBot.finish`: run `finish_{manner}` (an unregistered
manner raises, the spec's `UnknownFinishManner`), then reset the state to
the default state and return the response. -/
def finish (b : Chat σ) (manner : String) : Except Err (Chat σ × String) :=
  match b.finishers manner with
  | none => Except.error (Err.unknownFinishManner manner)
  | some f => (f b.scratch).map (fun resp => ({ b with state := b.default_state }, resp))

/-- Model of `ChatBot.respond`: look up `respond_from_{state}`, call it
with the message and its tag counts, and execute the terminal action the
handler body ended with. -/
def respond (b : Chat σ) (message : String) : Except Err (Chat σ × String) :=
  match b.respondFrom b.state with
  | none => Except.error (Err.missingHandler ("respond_from_" ++ b.state))
  | some f =>
    match f b.scratch message (getTags b.TAGS message) with
    | HandlerOut.goTo scr s => go_to_state { b with scratch := scr } s
    | HandlerOut.finishWith scr m => finish { b with scratch := scr } m
    | HandlerOut.direct scr resp => Except.ok ({ b with scratch := scr }, resp)

/-- Model of `ChatBot._get_tags` as the instance method it is: it reads
`self.TAGS` and returns the receiver unchanged together with the counter
(the body performs no assignment). -/
def get_tags_method (b : Chat σ) (message : String) : Chat σ × (String → Nat) :=
  (b, getTags b.TAGS message)

/-- Warning of `__init__` for a default state missing from STATES (the
source text literally prints "is listed as a state"). -/
def defaultWarning (default_state s0 : String) : String :=
  "WARNING: The default state " ++ default_state ++
    " is listed as a state. Perhaps you mean " ++ s0 ++ "?"

/-- Handler-role prefixes `_check_states` requires for a state. -/
def prefixesFor (state default_state : String) : List String :=
  (if state != default_state then ["on_enter"] else []) ++ ["respond_from"]

/-- Warning of `_check_states` for a missing handler method. -/
def missingWarning (pre state : String) : String :=
  "WARNING: State \"" ++ state ++ "\" is defined but has no response function self." ++
    pre ++ "_" ++ state

/-- Model of `ChatBot._check_states`: one warning per declared state and
required role whose method is missing. -/
def checkStatesWarnings (STATES : List String) (default_state : String)
    (hasOnEnter hasRespond : String → Bool) : List String :=
  (STATES.map (fun state =>
    (prefixesFor state default_state).filterMap (fun pre =>
      if (if pre == "on_enter" then hasOnEnter state else hasRespond state) then none
      else some (missingWarning pre state)))).flatten

/-- Model of `ChatBot.__init__`: warn (naming `self.STATES[0]`, an
`IndexError` when STATES is empty) if the default state is not declared,
set `default_state` and `state`, collect the `_check_states` warnings,
then normalize the TAGS dict through `_check_tags`.  Returns the usable
engine together with the printed warnings. -/
def initChat (σ : Type) (STATES : List String) (TAGSraw : List (String × PyVal))
    (onEnter : String → Option (σ → Except Err String))
    (respondFrom : String → Option (σ → String → (String → Nat) → HandlerOut σ))
    (finishers : String → Option (σ → Except Err String))
    (default_state : String) (scratch : σ) : Except Err (Chat σ × List String) := do
  let warns1 ←
    if STATES.contains default_state then Except.ok []
    else
      match STATES with
      | [] => Except.error Err.indexError
      | s0 :: _ => Except.ok [defaultWarning default_state s0]
  let warns2 := checkStatesWarnings STATES default_state
    (fun s => (onEnter s).isSome) (fun s => (respondFrom s).isSome)
  let TAGS ← checkTags (dictOfList TAGSraw)
  Except.ok
    ({ STATES := STATES, TAGS := TAGS, default_state := default_state,
       state := default_state, scratch := scratch, onEnter := onEnter,
       respondFrom := respondFrom, finishers := finishers },
     warns1 ++ warns2)

/-- Scratch data of `CsStruggleBot`: `self.professor` and `self.course`
(both initialized to `None`). -/
structure CsScratch where
  professor : Option String
  course : Option String
deriving DecidableEq

/-- The STATES list of `CsStruggleBot`, exactly as declared (including
the `indentified_problem` typo of the source). -/
def csSTATES : List String :=
  ["waiting", "unknown_problem", "indentified_problem", "failing",
   "specific_class", "offer_solution", "spring2018"]

/-- The TAGS dict literal of `CsStruggleBot`, as the listing written in
the source (the key `help` is written twice; Python dict construction,
modelled by `dictOfList`, resolves the duplicate). -/
def csTAGSraw : List (String × String) :=
  [("fail", "failing"),
   ("failing", "failing"),
   ("help", "problem"),
   ("office hours", "office-hours"),
   ("help", "office-hours"),
   ("kathryn", "kathryn"),
   ("leonard", "kathryn"),
   ("justin", "justin"),
   ("li", "justin"),
   ("jeff", "jeff"),
   ("miller", "jeff"),
   ("celia", "celia"),
   ("hsing-hau", "hsing-hau"),
   ("intro", "intro"),
   ("fundamentals", "intro"),
   ("comp 131", "intro"),
   ("131", "intro"),
   ("mathematica", "mathematica"),
   ("comp 165", "mathematica"),
   ("165", "mathematica"),
   ("data structures", "data structures"),
   ("comp 229", "data structures"),
   ("229", "structures"),
   ("computer organization", "computer organization"),
   ("comp 239", "computer"),
   ("239", "computer organization"),
   ("algorithms analysis", "algorithms analysis"),
   ("algorithms", "algorithms analysis"),
   ("analysis", "algorithms analysis"),
   ("comp 317", "algorithms analysis"),
   ("317", "algorithms analysis"),
   ("human computer interaction", "hci"),
   ("hci", "hci"),
   ("comp 340", "hci"),
   ("340", "hci"),
   ("computability and complexity", "c and c"),
   ("comp 352", "c and c"),
   ("352", "c and c"),
   ("computer science senior seminar", "senior seminar"),
   ("seminar", "senior seminar"),
   ("senior", "senior seminar"),
   ("comp 490", "senior seminar"),
   ("490", "senior seminar"),
   ("mobile apps", "mobile apps"),
   ("mobile", "mobile apps"),
   ("apps", "mobile apps"),
   ("information theory", "information theory"),
   ("info thoery", "information theory"),
   ("practicum in computer science", "practicum"),
   ("practicum", "practicum"),
   ("computer science practicum", "practicum"),
   ("cs practicum", "practicum"),
   ("computer science junior seminar", "junior seminar"),
   ("junior seminar", "junior seminar"),
   ("cs junior seminar", "junior seminar"),
   ("thanks", "thanks"),
   ("okay", "success"),
   ("bye", "success"),
   ("yes", "yes"),
   ("yep", "yes"),
   ("no", "no"),
   ("nope", "no"),
   ("hate", "negative"),
   ("dislike", "negative")]

/-- The TAGS table of `CsStruggleBot` after dict construction and
`_check_tags` normalization (every value is a bare string, promoted to a
singleton list). -/
def csTAGS : List (String × List String) :=
  (dictOfList csTAGSraw).map (fun pt => (pt.1, [pt.2]))

/-- The PROFESSORS list of `CsStruggleBot`. -/
def PROFESSORS : List String := ["celia", "hsing-hau", "jeff", "justin", "kathryn"]

/-- The COURSES list of `CsStruggleBot` (declared but unused by handlers). -/
def COURSES : List String :=
  ["intro", "mathematica", "data structures", "computer organization",
   "algorithms analysis", "hci", "c and c", "senior seminar"]

/-- Model of Python's `str.capitalize`: first character upper-cased, the
rest lower-cased. -/
def capitalize (s : String) : String :=
  match s.toList with
  | [] => ""
  | c :: cs => String.mk (c.toUpper :: cs.map Char.toLower)

/-- Model of `CsStruggleBot.get_office_hours`: dict lookup, a `KeyError`
for an unknown professor. -/
def get_office_hours (professor : String) : Except Err String :=
  match [("celia", "F 12-1:45pm; F 2:45-4:00pm"),
         ("hsing-hau", "T 1-2:30pm; Th 10:30am-noon"),
         ("jeff", "unknown"),
         ("justin", "T 1-2pm; W noon-1pm; F 3-4pm"),
         ("kathryn", "MWF 4-5pm")].lookup professor with
  | some v => Except.ok v
  | none => Except.error (Err.keyError professor)

/-- Model of `CsStruggleBot.get_office`: dict lookup, a `KeyError` for an
unknown professor. -/
def get_office (professor : String) : Except Err String :=
  match [("celia", "Swan 216"),
         ("hsing-hau", "Swan 302"),
         ("jeff", "Fowler 321"),
         ("justin", "Swan B102"),
         ("kathryn", "Swan B101")].lookup professor with
  | some v => Except.ok v
  | none => Except.error (Err.keyError professor)

/-- Model of `CsStruggleBot.respond_from_waiting`: reset the remembered
professor, then branch on the extracted tags exactly as the source does. -/
def cs_respond_from_waiting (scr : CsScratch) (_message : String)
    (tags : String → Nat) : HandlerOut CsScratch :=
  let scr := { scr with professor := none }
  if hasTag tags "failing" then HandlerOut.goTo scr "failing"
  else if hasTag tags "intro" || hasTag tags "mathematica" ||
      hasTag tags "data structures" || hasTag tags "computer organization" ||
      hasTag tags "algorithms analysis" || hasTag tags "hci" then
    HandlerOut.goTo scr "specific_class"
  else if hasTag tags "mobile apps" || hasTag tags "information theory" ||
      hasTag tags "practicum" || hasTag tags "junior seminar" then
    HandlerOut.goTo scr "spring2018"
  else if hasTag tags "office-hours" then
    match PROFESSORS.find? (fun professor => hasTag tags professor) with
    | some professor => HandlerOut.goTo { scr with professor := some professor } "specific_faculty"
    | none => HandlerOut.goTo scr "unknown_faculty"
  else if hasTag tags "thanks" then HandlerOut.finishWith scr "thanks"
  else HandlerOut.finishWith scr "confused"

/-- Model of `CsStruggleBot.respond_from_specific_faculty`. -/
def cs_respond_from_specific_faculty (scr : CsScratch) (_message : String)
    (tags : String → Nat) : HandlerOut CsScratch :=
  if hasTag tags "yes" then HandlerOut.finishWith scr "success"
  else HandlerOut.finishWith scr "location"

/-- Model of `CsStruggleBot.respond_from_unknown_faculty`. -/
def cs_respond_from_unknown_faculty (scr : CsScratch) (_message : String)
    (tags : String → Nat) : HandlerOut CsScratch :=
  match PROFESSORS.find? (fun professor => hasTag tags professor) with
  | some professor => HandlerOut.goTo { scr with professor := some professor } "specific_faculty"
  | none => HandlerOut.goTo scr "unrecognized_faculty"

/-- Model of `CsStruggleBot.respond_from_unrecognized_faculty`. -/
def cs_respond_from_unrecognized_faculty (scr : CsScratch) (_message : String)
    (tags : String → Nat) : HandlerOut CsScratch :=
  match PROFESSORS.find? (fun professor => hasTag tags professor) with
  | some professor => HandlerOut.goTo { scr with professor := some professor } "specific_faculty"
  | none => HandlerOut.finishWith scr "fail"

/-- The `on_enter_*` methods `CsStruggleBot` defines.  A `None` professor
would raise an `AttributeError` on `.capitalize()` in Python. -/
def cs_onEnter : String → Option (CsScratch → Except Err String)
  | "specific_faculty" => some (fun scr =>
      match scr.professor with
      | none => Except.error (Err.attributeError "capitalize")
      | some professor =>
        (get_office_hours professor).map (fun oh =>
          capitalize professor ++ "'s office hours are " ++ oh ++ "\n" ++
            "Do you know where their office is?"))
  | "failing" => some (fun _ => Except.ok "Which course are you currently failing?")
  | "specific_class" => some (fun _ =>
      Except.ok "You should get in touch with your professor. Do you know when their office hours are?")
  | "spring2018" => some (fun _ =>
      Except.ok ("I'm sorry, I can only help you with courses offered this semester.\n" ++
        "Is there anything else I can help you with?"))
  | "unknown_faculty" => some (fun _ => Except.ok "Who's office hours are you looking for?")
  | "unrecognized_faculty" => some (fun _ =>
      Except.ok "I'm not sure I understand - are you looking for Celia, Hsing-hau, Jeff, Justin, or Kathryn?")
  | _ => none

/-- The `respond_from_*` methods `CsStruggleBot` defines. -/
def cs_respondFrom :
    String → Option (CsScratch → String → (String → Nat) → HandlerOut CsScratch)
  | "waiting" => some cs_respond_from_waiting
  | "specific_faculty" => some cs_respond_from_specific_faculty
  | "unknown_faculty" => some cs_respond_from_unknown_faculty
  | "unrecognized_faculty" => some cs_respond_from_unrecognized_faculty
  | _ => none

/-- The `finish_*` methods `CsStruggleBot` defines. -/
def cs_finishers : String → Option (CsScratch → Except Err String)
  | "confused" => some (fun _ =>
      Except.ok ("Sorry, I'm just a simple bot that understands a few things.\n" ++
        "You can ask me for advice if you are struggling with computer science!"))
  | "location" => some (fun scr =>
      match scr.professor with
      | none => Except.error (Err.attributeError "capitalize")
      | some professor =>
        (get_office professor).map (fun office =>
          capitalize professor ++ "'s office is in " ++ office))
  | "success" => some (fun _ => Except.ok "Great, let me know if you need anything else!")
  | "fail" => some (fun _ =>
      Except.ok "I've tried my best but I still don't understand. Maybe try asking other students?")
  | "thanks" => some (fun _ => Except.ok "You're welcome!")
  | _ => none

/-- A `CsStruggleBot` session: constructed with `default_state='waiting'`,
shown here at an arbitrary current state and scratch data. -/
def csBot (state : String) (professor course : Option String) : Chat CsScratch :=
  { STATES := csSTATES, TAGS := csTAGS, default_state := "waiting",
    state := state, scratch := { professor := professor, course := course },
    onEnter := cs_onEnter, respondFrom := cs_respondFrom, finishers := cs_finishers }

/-- Scratch data of `teendrugbot`: `self.drug` (initialized to
`'unknown'`). -/
structure TdScratch where
  drug : String
deriving DecidableEq

/-- The STATES list of `teendrugbot`, exactly as declared. -/
def tdSTATES : List String :=
  ["waiting", "common_symptom", "common_symptom_2", "common_symptom_3",
   "common_symptom_4", "common_symptom_5", "common_symptom_6",
   "common_symptom_7", "identified_drug"]

/-- The TAGS dict literal of `teendrugbot`, as the listing written in the
source (several keys are written more than once, e.g. `shaking`,
`talkative`, `dry mouth`, `paranoid`, `gum`, `pipe`, `nose`, `spoon`,
`disoriented`, `pupils`, `behavior`, `alcohol`; Python dict construction,
modelled by `dictOfList`, resolves the duplicates; the value of `eat` is
the literal string `common,` of the source). -/
def tdTAGSraw : List (String × String) :=
  [("red eyes", "weed"),
   ("bloodshot eyes", "weed"),
   ("slow reaction time", "weed"),
   ("slow reaction", "weed"),
   ("bad problem solving", "weed"),
   ("poor problem solving", "weed"),
   ("difficulty problem solving", "weed"),
   ("lose track of thoughts", "weed"),
   ("bad memory", "weed"),
   ("poor memory", "weed"),
   ("short term memory", "weed"),
   ("extreme hunger", "weed"),
   ("unusual hunger", "weed"),
   ("increasing eating", "weed"),
   ("eating more", "weed"),
   ("munchies", "weed"),
   ("silly", "weed"),
   ("giggly", "weed"),
   ("acting slow", "weed"),
   ("lethargic", "weed"),
   ("dazed", "weed"),
   ("confused", "weed"),
   ("420", "weed"),
   ("rolling paper", "weed"),
   ("bong", "weed"),
   ("decorative piece", "weed"),
   ("plants", "weed"),
   ("dried plant", "weed"),
   ("dried plants", "weed"),
   ("grinder", "weed"),
   ("oregano", "weed"),
   ("marijuana leaves", "weed"),
   ("devil", "weed"),
   ("devils lettuce", "weed"),
   ("grass", "weed"),
   ("cannabis", "weed"),
   ("blaze", "weed"),
   ("ganga", "weed"),
   ("joint", "weed"),
   ("blunt", "weed"),
   ("hemp", "weed"),
   ("headache", "addy"),
   ("hoarseness", "addy"),
   ("shaking", "addy"),
   ("shakiness", "addy"),
   ("tremors", "addy"),
   ("seizures", "addy"),
   ("adderall", "addy"),
   ("talkative", "addy"),
   ("excitable", "addy"),
   ("aggressive", "addy"),
   ("aggression", "addy"),
   ("appetite", "alcohol"),
   ("shaking", "alcohol"),
   ("grooming", "alcohol"),
   ("hygeine", "alcohol"),
   ("slurred speech", "alcohol"),
   ("bruises", "alcohol"),
   ("smell of alcohol", "alcohol"),
   ("smells of alcohol", "alcohol"),
   ("alcohol", "alcohol"),
   ("gum", "alcohol"),
   ("arguments", "alcohol"),
   ("accidents", "alcohol"),
   ("isolated", "alcohol"),
   ("irritability", "alcohol"),
   ("outburst", "alcohol"),
   ("alcohol", "alcohol"),
   ("bottles", "alcohol"),
   ("bottle", "alcohol"),
   ("breath", "tobacco"),
   ("bad breath", "tobacco"),
   ("teeth", "tobacco"),
   ("yellow", "tobacco"),
   ("fingers", "tobacco"),
   ("wheezing", "tobacco"),
   ("smoke", "tobacco"),
   ("smokey", "tobacco"),
   ("windows", "tobacco"),
   ("burn", "tobacco"),
   ("burns", "tobacco"),
   ("fire", "tobacco"),
   ("lighter", "tobacco"),
   ("matches", "tobacco"),
   ("temper", "tobacco"),
   ("tobacco", "tobacco"),
   ("hyper", "cocaine"),
   ("pupils", "cocaine"),
   ("nose", "cocaine"),
   ("snort", "cocaine"),
   ("behavior", "cocaine"),
   ("confidence", "cocaine"),
   ("talkative", "cocaine"),
   ("powder", "cocaine"),
   ("hygeiene", "cocaine"),
   ("needle marks", "cocaine"),
   ("spoon", "cocaine"),
   ("razor", "cocaine"),
   ("isolation", "cocaine"),
   ("dry mouth", "lsd"),
   ("tingling fingers", "lsd"),
   ("weakness", "lsd"),
   ("distress", "lsd"),
   ("anxiety", "lsd"),
   ("anxious", "lsd"),
   ("depression", "lsd"),
   ("depressed", "lsd"),
   ("disoriented", "lsd"),
   ("paranoid", "lsd"),
   ("convulsions", "lsd"),
   ("sweating", "lsd"),
   ("chills", "lsd"),
   ("vision", "lsd"),
   ("hallucinate", "lsd"),
   ("hallucinogen", "lsd"),
   ("hallucinating", "lsd"),
   ("seeing things", "lsd"),
   ("disoriented", "opioid"),
   ("swings", "opioid"),
   ("droopy", "opioid"),
   ("needles", "opioid"),
   ("syringe", "opioid"),
   ("spoon", "opioid"),
   ("shoelaces", "opioid"),
   ("straws", "opioid"),
   ("pipe", "opioid"),
   ("nose", "opioid"),
   ("marks", "opioid"),
   ("infection", "opioid"),
   ("cuts", "opioid"),
   ("scabs", "opioid"),
   ("picking", "opioid"),
   ("hygiene", "opioid"),
   ("motivation", "opioid"),
   ("hostile", "opioid"),
   ("self esteem", "opioid"),
   ("pants", "opioid"),
   ("sleeves", "opioid"),
   ("cough", "common"),
   ("fast heartbeat", "common"),
   ("rapid heartbeat", "common"),
   ("dry mouth", "common"),
   ("poor coordination", "common"),
   ("bad coordination", "common"),
   ("loss of motivation", "common"),
   ("no motivation", "common"),
   ("lack of motivation", "common"),
   ("no enthusiasm", "common"),
   ("loss of enthusiasm", "common"),
   ("lack of enthusiasm", "common"),
   ("paranoia", "common"),
   ("paranoid", "common"),
   ("bag", "common"),
   ("pipe", "common"),
   ("pipes", "common"),
   ("baggies", "common"),
   ("small baggies", "common"),
   ("insence", "common"),
   ("air freshener", "common"),
   ("cologne", "common"),
   ("perfume", "common"),
   ("mouthwash", "common"),
   ("mints", "common"),
   ("gum", "common"),
   ("towel", "common"),
   ("nausea", "common"),
   ("bad hygeiene", "common"),
   ("poor hygeine", "common"),
   ("bad personal grooming", "common"),
   ("poor personal grooming", "common"),
   ("stinky", "common"),
   ("smelly", "common"),
   ("smell", "common"),
   ("slurred speech", "common"),
   ("slurred", "common"),
   ("incoherent speech", "common"),
   ("missing school", "common"),
   ("grades", "common"),
   ("trouble", "common"),
   ("fights", "common"),
   ("interest", "common"),
   ("sleep", "common"),
   ("money", "money"),
   ("mood", "common"),
   ("weight", "common"),
   ("eat", "common,"),
   ("eating", "common"),
   ("dizzy", "common"),
   ("nauseous", "common"),
   ("heartrate", "common"),
   ("heart rate", "common"),
   ("pupils", "common"),
   ("behavior", "common"),
   ("withdrawn", "common"),
   ("yes", "yes"),
   ("yeah", "yes"),
   ("no", "no"),
   ("nope", "no"),
   ("thanks", "thanks"),
   ("thanks!", "thanks"),
   ("thank you", "thanks")]

/-- The TAGS table of `teendrugbot` after dict construction and
`_check_tags` normalization. -/
def tdTAGS : List (String × List String) :=
  (dictOfList tdTAGSraw).map (fun pt => (pt.1, [pt.2]))

/-- Response of `teendrugbot.finish_success`. -/
def td_finish_success : String := "Great, let me know if you need anything else!"

/-- Response of `teendrugbot.finish_fail`. -/
def td_finish_fail : String :=
  "I've tried my best but I still don't understand. Maybe try asking a human health professional?"

/-- Response of `teendrugbot.finish_thanks`. -/
def td_finish_thanks : String := "You're welcome!"

/-- Model of `teendrugbot.respond_from_waiting`: reset the drug to
`'unknown'`, then re-detect it from the tags (later checks overwrite
earlier ones) or fall through to the common-symptom questions. -/
def td_respond_from_waiting (scr : TdScratch) (_message : String)
    (tags : String → Nat) : HandlerOut TdScratch :=
  let scr := { scr with drug := "unknown" }
  if hasTag tags "alcohol" || hasTag tags "cocaine" || hasTag tags "weed" ||
      hasTag tags "lsd" || hasTag tags "tobacco" || hasTag tags "addy" then
    let scr := if hasTag tags "alcohol" then { scr with drug := "alcohol" } else scr
    let scr := if hasTag tags "cocaine" then { scr with drug := "cocaine" } else scr
    let scr := if hasTag tags "weed" then { scr with drug := "weed" } else scr
    let scr := if hasTag tags "lsd" then { scr with drug := "lsd" } else scr
    let scr := if hasTag tags "tobacco" then { scr with drug := "tobacco" } else scr
    let scr := if hasTag tags "addy" then { scr with drug := "addy" } else scr
    HandlerOut.goTo scr "identified_drug"
  else if hasTag tags "common" then HandlerOut.goTo scr "common_symptom"
  else if hasTag tags "thanks" then HandlerOut.finishWith scr "thanks"
  else HandlerOut.goTo scr "common_symptom"

/-- Model of `teendrugbot.on_enter_identified_drug`: a per-drug fact
text; for an unrecognized drug it falls through to
`return self.finish_fail()` (a direct call, so no state reset). -/
def td_on_enter_identified_drug (scr : TdScratch) : Except Err String :=
  if scr.drug == "weed" then
    Except.ok "Sounds like your kid is using marijuana. Is it legal in your state?"
  else if scr.drug == "alcohol" then
    Except.ok ("Seems like your kid is using alcohol. Alcohol is the most popular drug amongst teens. Your child's use " ++
      "of it may be inevitable. \nBecause of this, approach your child with nonjudgmental information on how to " ++
      "drink safely, and let them know you're always around to help. \n\nAny other problems with your kid(s) and drugs?")
  else if scr.drug == "cocaine" then
    Except.ok ("Seems like your kid is using cocaine. \nRIP :(\nCocaine is a highly addictive and dangerous drug. I'd recommend " ++
      "talking to your child (_CALMLY_) and ask how long/how often they've been using. \nIf it's frequent use, rehab" ++
      " is the safest option for your kid. If you're not comfortable with that, drug addiction support groups in your area" ++
      " are also effective. \n\nAny other problems with your kid(s) and drugs?")
  else if scr.drug == "tobacco" then
    Except.ok ("Sounds like your kid is using tobacco!! Interventions are proven to be effective in curbing adolescent use. " ++
      "\n(_CALMLY_) Talk to your child about the harmful long term and short term effects of tobacco. \nAs with anything, " ++
      "reassure your child that you are a resource for them and they can come to you for information, advice, or help." ++
      "\n\nAny other problems with your kid(s) and drugs?")
  else if scr.drug == "addy" then
    Except.ok ("Sounds like your kid is using Adderall recreationally! Approach this issue sensitively. \nWith Adderall abuse, " ++
      "it's important to think about reasons your child may have turned to this substance, and talk to your child about " ++
      "their feelings, stressors, and mental health. \nOnce you know the main reason, help your child address and " ++
      "move past it. If you don't find the reason, make sure you talk to your child about the repercussions of " ++
      "using Adderall without a prescription. \nBe open, be understanding, be kind.\n\nAny other problems with your" ++
      " kid(s) and drugs?")
  else if scr.drug == "lsd" then
    Except.ok ("Sounds like your kid is using hallucinogens. You’re in luck! Or as lucky as you can be with your child using drugs. The FDA has claimed that " ++
      "\nLSD and most other hallucinogens do not make the chemical changes in the brain responsible" ++
      " \nfor the development of cravings like other drugs do, meaning that there is no element of chemically" ++
      " \ndependent drug seeking behavior. Although there is no chemical addiction, your kid could still have " ++
      "\na general addiction to the effects of hallucinogens. If your kid is addicted, they’d be taking " ++
      "\nhallucinogens with other substances to heighten the experience of hallucinogens, spending " ++
      "\nsubstantial amounts of time or money on obtaining or using hallucinogens, and neglecting " ++
      "\nresponsibilities or hobbies as a result of continued hallucinogen use. " ++
      "\n\nIs your child doing any of those things?")
  else Except.ok td_finish_fail

/-- Model of `teendrugbot.respond_from_identified_drug`: every branch
returns a plain string — either a literal or the result of calling a
`finish_*` method directly — and never calls `go_to_state` or `finish`,
so the state is never updated. -/
def td_respond_from_identified_drug (scr : TdScratch) (_message : String)
    (tags : String → Nat) : HandlerOut TdScratch :=
  if scr.drug == "weed" then
    if hasTag tags "yes" then
      HandlerOut.direct scr ("Everyone smokes it now. Warn your kid of the repercussions and move on.\n\nFor more help and advice, leave this instance of the " ++
        "teendrugbot and come back!")
    else
      HandlerOut.direct scr ("As far as drugs go, that ain't bad! Confiscate it for yourself.\n\nFor more help and advice, leave this instance of the " ++
        "teendrugbot and come back!")
  else if scr.drug == "lsd" then
    if hasTag tags "yes" then
      HandlerOut.direct scr ("Gosh diddly darn. That’s pretty serious! Hallucinogens require larger amounts over time to " ++
        "\nexperience the desired effects, which means it’s really easy to overdose with consistent use, " ++
        "\nand bad trips that put your kid in danger are more frequent. Talking to your kid about how " ++
        "\ndangerous hallucinogens can be is the best first step. Then from there, you can either use a " ++
        "\nbrief intervention technique, or community reinforcement and family training (CRAFT), both of " ++
        "\nwhich are backed by a bunch of research. Brief interventions are essentially short counseling " ++
        "\nsessions—lasting anywhere from 5-30 minutes—that are administered by trained healthcare " ++
        "\nproviders. CRAFT, on the other hand, is a way to increase compliance of your kid in substance " ++
        "\nabuse treatment by properly engaging family and community members. People who comprise " ++
        "\nyour kid’s support system are trained in ways that strengthen this system and maximize the " ++
        "\nindividual’s chances of maintaining sobriety.\n\nFor more help and advice, leave this instance of the " ++
        "teendrugbot and come back!")
    else
      HandlerOut.direct scr ("Alrighty then! Helping your kid is pretty straightforward. " ++
        "\nIt’s really about talking to your kid in an open way where you’re really trying to hear " ++
        "\nthem. Then, once you’ve addressed the issue yourself, providing group and individual therapy " ++
        "\nare effective ways to address the reasons behind the substance use and helping your to develop" ++
        " \nboth better coping skills and techniques to prevent relapse.\n\nFor more help and advice, leave this instance of the " ++
        "teendrugbot and come back!")
  else
    if hasTag tags "yes" then
      HandlerOut.direct scr "I'm happy to help! Please leave this instance of the teendrugbot and come back with your next problem!"
    else if hasTag tags "thanks" then
      HandlerOut.direct scr td_finish_thanks
    else
      HandlerOut.direct scr td_finish_success

/-- Model of `teendrugbot.respond_from_common_symptom`: on a yes-like tag
identify weed, otherwise move to the next question. -/
def td_respond_from_common_symptom (scr : TdScratch) (_message : String)
    (tags : String → Nat) : HandlerOut TdScratch :=
  if hasTag tags "yes" || hasTag tags "yep" || hasTag tags "ye" then
    HandlerOut.goTo { scr with drug := "weed" } "identified_drug"
  else HandlerOut.goTo scr "common_symptom_2"

/-- Model of `teendrugbot.respond_from_common_symptom_2`. -/
def td_respond_from_common_symptom_2 (scr : TdScratch) (_message : String)
    (tags : String → Nat) : HandlerOut TdScratch :=
  if hasTag tags "yes" || hasTag tags "yep" || hasTag tags "ye" then
    HandlerOut.goTo { scr with drug := "addy" } "identified_drug"
  else HandlerOut.goTo scr "common_symptom_3"

/-- Model of `teendrugbot.respond_from_common_symptom_3`. -/
def td_respond_from_common_symptom_3 (scr : TdScratch) (_message : String)
    (tags : String → Nat) : HandlerOut TdScratch :=
  if hasTag tags "yes" || hasTag tags "yep" || hasTag tags "ye" then
    HandlerOut.goTo { scr with drug := "alcohol" } "identified_drug"
  else HandlerOut.goTo scr "common_symptom_4"

/-- Model of `teendrugbot.respond_from_common_symptom_4`. -/
def td_respond_from_common_symptom_4 (scr : TdScratch) (_message : String)
    (tags : String → Nat) : HandlerOut TdScratch :=
  if hasTag tags "yes" || hasTag tags "yep" || hasTag tags "ye" then
    HandlerOut.goTo { scr with drug := "tobacco" } "identified_drug"
  else HandlerOut.goTo scr "common_symptom_5"

/-- Model of `teendrugbot.respond_from_common_symptom_5`. -/
def td_respond_from_common_symptom_5 (scr : TdScratch) (_message : String)
    (tags : String → Nat) : HandlerOut TdScratch :=
  if hasTag tags "yes" || hasTag tags "yep" || hasTag tags "ye" then
    HandlerOut.goTo { scr with drug := "cocaine" } "identified_drug"
  else HandlerOut.goTo scr "common_symptom_6"

/-- Model of `teendrugbot.respond_from_common_symptom_6`. -/
def td_respond_from_common_symptom_6 (scr : TdScratch) (_message : String)
    (tags : String → Nat) : HandlerOut TdScratch :=
  if hasTag tags "yes" || hasTag tags "yep" || hasTag tags "ye" then
    HandlerOut.goTo { scr with drug := "lsd" } "identified_drug"
  else HandlerOut.goTo scr "common_symptom_7"

/-- Model of `teendrugbot.respond_from_common_symptom_7`: the no-branch
is `return self.finish_fail()` — a direct call, so no state reset. -/
def td_respond_from_common_symptom_7 (scr : TdScratch) (_message : String)
    (tags : String → Nat) : HandlerOut TdScratch :=
  if hasTag tags "yes" || hasTag tags "yep" || hasTag tags "ye" then
    HandlerOut.goTo { scr with drug := "opioid" } "identified_drug"
  else HandlerOut.direct scr td_finish_fail

/-- The `on_enter_*` methods `teendrugbot` defines. -/
def td_onEnter : String → Option (TdScratch → Except Err String)
  | "identified_drug" => some td_on_enter_identified_drug
  | "common_symptom" => some (fun _ =>
      Except.ok ("Sorry, I'll need a bit more information to determine what kind of drug your teen is experimenting with. \n" ++
        "Does your teen have bloodshoot eyes often and do they seem to be losing motivation?"))
  | "common_symptom_2" => some (fun _ =>
      Except.ok "Is your teen being overly talkative and unusually excitable?")
  | "common_symptom_3" => some (fun _ =>
      Except.ok "Is your teen getting into fights and unable to do complex tasks?")
  | "common_symptom_4" => some (fun _ =>
      Except.ok "Have you noticed your teen coughing/wheezing a lot or if they have stained/yellow fingers?")
  | "common_symptom_5" => some (fun _ =>
      Except.ok "Has your teen been getting frequent nose bleeds or often have a runny nose?")
  | "common_symptom_6" => some (fun _ =>
      Except.ok "Has your teen been hallucinating and seeing things that aren't there?")
  | "common_symptom_7" => some (fun _ =>
      Except.ok "Have you noticed any injection marks on your teen?")
  | _ => none

/-- The `respond_from_*` methods `teendrugbot` defines. -/
def td_respondFrom :
    String → Option (TdScratch → String → (String → Nat) → HandlerOut TdScratch)
  | "waiting" => some td_respond_from_waiting
  | "identified_drug" => some td_respond_from_identified_drug
  | "common_symptom" => some td_respond_from_common_symptom
  | "common_symptom_2" => some td_respond_from_common_symptom_2
  | "common_symptom_3" => some td_respond_from_common_symptom_3
  | "common_symptom_4" => some td_respond_from_common_symptom_4
  | "common_symptom_5" => some td_respond_from_common_symptom_5
  | "common_symptom_6" => some td_respond_from_common_symptom_6
  | "common_symptom_7" => some td_respond_from_common_symptom_7
  | _ => none

/-- The `finish_*` methods `teendrugbot` defines. -/
def td_finishers : String → Option (TdScratch → Except Err String)
  | "success" => some (fun _ => Except.ok td_finish_success)
  | "fail" => some (fun _ => Except.ok td_finish_fail)
  | "thanks" => some (fun _ => Except.ok td_finish_thanks)
  | _ => none

/-- A `teendrugbot` session: constructed with `default_state='waiting'`,
shown here at an arbitrary current state and remembered drug. -/
def tdBot (state drug : String) : Chat TdScratch :=
  { STATES := tdSTATES, TAGS := tdTAGS, default_state := "waiting",
    state := state, scratch := { drug := drug },
    onEnter := td_onEnter, respondFrom := td_respondFrom, finishers := td_finishers }

/-- Normalized form of a TAGS value, used to state the C6 contract: the
singleton promotion for a bare string, the unchanged list/tuple content,
and `none` for an invalid shape. -/
def normTag : PyVal → Option (List String)
  | PyVal.pstr s => some [s]
  | PyVal.plist ts => some ts
  | PyVal.ptuple ts => some ts
  | PyVal.pother => none

theorem metaFree_cons (c : Char) (l : List Char) (h : metaFree (c :: l) = true) :
    c ≠ '\\' ∧ c ≠ '.' ∧ metaFree l = true := by
  simp only [metaFree, List.all_cons, Bool.and_eq_true] at h
  obtain ⟨h1, h2⟩ := h
  refine ⟨?_, ?_, h2⟩
  · intro hc; subst hc; revert h1; decide
  · intro hc; subst hc; revert h1; decide

theorem parsePat_wb_cons (rest : List Char) :
    parsePat ('\\' :: 'b' :: rest) = Tok.wb :: parsePat rest := rfl

theorem parsePat_litRun : ∀ (l : List Char), metaFree l = true →
    parsePat (l ++ ['\\', 'b']) = l.map Tok.lit ++ [Tok.wb] := by
  intro l
  induction l with
  | nil => intro _; rfl
  | cons c cs ih =>
    intro h
    obtain ⟨h1, h2, h3⟩ := metaFree_cons c cs h
    simp only [List.cons_append, List.map_cons]
    rw [parsePat.eq_def]
    dsimp only
    rw [if_neg h1, if_neg h2, ih h3]

theorem matchToks_nil (s : List Char) (i : Nat) : matchToks [] s i = true := rfl

theorem matchToks_wb (ts : List Tok) (s : List Char) (i : Nat) :
    matchToks (Tok.wb :: ts) s i = (boundaryAt s i && matchToks ts s i) := rfl

theorem matchToks_lits : ∀ (l : List Char) (ts : List Tok) (s : List Char) (i : Nat),
    matchToks (l.map Tok.lit ++ ts) s i = (prefixAt l s i && matchToks ts s (i + l.length)) := by
  intro l
  induction l with
  | nil => intro ts s i; simp [prefixAt]
  | cons c cs ih =>
    intro ts s i
    simp only [List.map_cons, List.cons_append]
    cases hg : s[i]? with
    | none => simp [matchToks, prefixAt, hg]
    | some d =>
      simp only [matchToks, prefixAt, hg, ih ts s (i + 1), List.length_cons]
      rw [show i + (cs.length + 1) = i + 1 + cs.length by omega]
      cases d == c <;> simp

theorem prefixAt_get : ∀ (l s : List Char) (i : Nat), prefixAt l s i = true →
    ∀ k, k < l.length → s[i + k]? = l[k]? := by
  intro l
  induction l with
  | nil => intro s i _ k hk; simp at hk
  | cons c cs ih =>
    intro s i h k hk
    cases hg : s[i]? with
    | none => simp [prefixAt, hg] at h
    | some d =>
      simp only [prefixAt, hg, Bool.and_eq_true, beq_iff_eq] at h
      obtain ⟨hdc, hrest⟩ := h
      cases k with
      | zero => subst hdc; simpa using hg
      | succ k' =>
        have hrec := ih s (i + 1) hrest k' (by simpa using hk)
        rw [show i + (k' + 1) = (i + 1) + k' by omega]
        simpa using hrec

theorem getLast?_idx : ∀ (l : List α), l.getLast? = l[l.length - 1]? := by
  intro l
  induction l with
  | nil => rfl
  | cons a t ih =>
    cases t with
    | nil => rfl
    | cons b t' =>
      rw [List.getLast?_cons_cons, ih]
      simp [List.length_cons]

theorem wb_pattern_at (p s : List Char) (i : Nat) (c d : Char)
    (hh : p.head? = some c) (hc : isWordChar c = true)
    (hl : p.getLast? = some d) (hd : isWordChar d = true) :
    (boundaryAt s i && (prefixAt p s i && boundaryAt s (i + p.length))) = wholeWordAt p s i := by
  cases p with
  | nil => simp at hh
  | cons c0 cs =>
    have hc0 : isWordChar c0 = true := by
      have he : c0 = c := by simpa using hh
      rw [he]; exact hc
    cases hpre : prefixAt (c0 :: cs) s i with
    | false => simp [wholeWordAt, hpre]
    | true =>
      have hs0 : s[i]? = some c0 := by
        have h0 := prefixAt_get _ s i hpre 0 (by simp)
        simpa using h0
      have hwi : isWordAt s i = true := by simp [isWordAt, hs0, hc0]
      have hLidx : (c0 :: cs)[cs.length]? = some d := by
        have hg := getLast?_idx (c0 :: cs)
        simp only [List.length_cons, Nat.add_sub_cancel] at hg
        rw [← hg]; exact hl
      have hLs : s[i + cs.length]? = some d := by
        rw [prefixAt_get _ s i hpre cs.length (by simp), hLidx]
      have hwl : isWordAt s (i + cs.length) = true := by simp [isWordAt, hLs, hd]
      have hb1 : boundaryAt s i = !(wordBefore s i) := by
        unfold boundaryAt
        rw [hwi]
        cases wordBefore s i <;> rfl
      have hb2 : boundaryAt s (i + (c0 :: cs).length) = !(isWordAt s (i + (c0 :: cs).length)) := by
        unfold boundaryAt
        rw [show i + (c0 :: cs).length = (i + cs.length) + 1 from by simp only [List.length_cons]; omega]
        rw [show wordBefore s ((i + cs.length) + 1) = isWordAt s (i + cs.length) from rfl, hwl]
        cases isWordAt s ((i + cs.length) + 1) <;> rfl
      rw [hb1, hb2]
      unfold wholeWordAt
      rw [hpre]
      cases wordBefore s i <;> cases isWordAt s (i + (c0 :: cs).length) <;> simp

theorem search_wb_pattern (p s : List Char) (c d : Char) (hm : metaFree p = true)
    (hh : p.head? = some c) (hc : isWordChar c = true)
    (hl : p.getLast? = some d) (hd : isWordChar d = true) :
    search (parsePat (('\\' :: 'b' :: p) ++ ['\\', 'b'])) s = wholeWordOccurs p s := by
  have hpat : ('\\' :: 'b' :: p) ++ ['\\', 'b'] = '\\' :: 'b' :: (p ++ ['\\', 'b']) := rfl
  rw [hpat, parsePat_wb_cons, parsePat_litRun p hm]
  unfold search wholeWordOccurs
  congr 1
  funext i
  rw [matchToks_wb, matchToks_lits, matchToks_wb, matchToks_nil, Bool.and_true]
  exact wb_pattern_at p s i c d hh hc hl hd

theorem phraseFound_nil_msg (phrase : String) : phraseFound phrase [] = false := by
  unfold phraseFound
  rw [show ('\\' :: 'b' :: strLower phrase) ++ ['\\', 'b'] = '\\' :: 'b' :: (strLower phrase ++ ['\\', 'b']) from rfl]
  rw [parsePat_wb_cons]
  unfold search
  simp [matchToks_wb, boundaryAt, wordBefore, isWordAt]

theorem foldl_counter (msg : List Char) (t : String) :
    ∀ (T : List (String × List String)) (acc : String → Nat),
      T.foldl (fun counter pt => if phraseFound pt.1 msg then counterUpdate counter pt.2 else counter) acc t
        = acc t + ((T.filter (fun pt => phraseFound pt.1 msg)).map (fun pt => pt.2.count t)).sum := by
  intro T
  induction T with
  | nil => intro acc; simp
  | cons pt T ih =>
    intro acc
    rw [List.foldl_cons]
    cases hf : phraseFound pt.1 msg with
    | true => simp [hf, ih, counterUpdate, List.filter_cons]; omega
    | false => simp [hf, ih, List.filter_cons]


theorem checkTags_get : ∀ (l : List (String × PyVal)) (T : List (String × List String)),
    checkTags l = Except.ok T → ∀ (i : Nat) (ph : String) (v : PyVal),
    l[i]? = some (ph, v) → ∃ ts, normTag v = some ts ∧ T[i]? = some (ph, ts) := by
  intro l
  induction l with
  | nil => intro T hT i ph v hl; simp at hl
  | cons pv rest ih =>
    intro T hT i ph v hl
    obtain ⟨p, w⟩ := pv
    cases w with
    | pother => simp [checkTags] at hT
    | pstr s =>
      simp only [checkTags] at hT
      cases hrest : checkTags rest with
      | error e => rw [hrest] at hT; simp [Except.map] at hT
      | ok T' =>
        rw [hrest] at hT
        simp only [Except.map, Except.ok.injEq] at hT
        subst hT
        cases i with
        | zero =>
          simp only [List.getElem?_cons_zero, Option.some.injEq, Prod.mk.injEq] at hl
          obtain ⟨hp, hv⟩ := hl
          subst hp; subst hv
          exact ⟨[s], rfl, by simp⟩
        | succ i' =>
          obtain ⟨ts, h1, h2⟩ := ih T' hrest i' ph v (by simpa using hl)
          exact ⟨ts, h1, by simpa using h2⟩
    | plist u =>
      simp only [checkTags] at hT
      cases hrest : checkTags rest with
      | error e => rw [hrest] at hT; simp [Except.map] at hT
      | ok T' =>
        rw [hrest] at hT
        simp only [Except.map, Except.ok.injEq] at hT
        subst hT
        cases i with
        | zero =>
          simp only [List.getElem?_cons_zero, Option.some.injEq, Prod.mk.injEq] at hl
          obtain ⟨hp, hv⟩ := hl
          subst hp; subst hv
          exact ⟨u, rfl, by simp⟩
        | succ i' =>
          obtain ⟨ts, h1, h2⟩ := ih T' hrest i' ph v (by simpa using hl)
          exact ⟨ts, h1, by simpa using h2⟩
    | ptuple u =>
      simp only [checkTags] at hT
      cases hrest : checkTags rest with
      | error e => rw [hrest] at hT; simp [Except.map] at hT
      | ok T' =>
        rw [hrest] at hT
        simp only [Except.map, Except.ok.injEq] at hT
        subst hT
        cases i with
        | zero =>
          simp only [List.getElem?_cons_zero, Option.some.injEq, Prod.mk.injEq] at hl
          obtain ⟨hp, hv⟩ := hl
          subst hp; subst hv
          exact ⟨u, rfl, by simp⟩
        | succ i' =>
          obtain ⟨ts, h1, h2⟩ := ih T' hrest i' ph v (by simpa using hl)
          exact ⟨ts, h1, by simpa using h2⟩

theorem checkTags_pother : ∀ (l : List (String × PyVal)) (ph : String),
    (ph, PyVal.pother) ∈ l → ∀ T, checkTags l ≠ Except.ok T := by
  intro l
  induction l with
  | nil => intro ph h; simp at h
  | cons pv rest ih =>
    intro ph h T hT
    obtain ⟨p, w⟩ := pv
    rcases List.mem_cons.mp h with heq | hmem
    · have hw : w = PyVal.pother := (congrArg Prod.snd heq).symm
      subst hw
      simp [checkTags] at hT
    · cases w with
      | pother => simp [checkTags] at hT
      | pstr s =>
        simp only [checkTags] at hT
        cases hrest : checkTags rest with
        | error e => rw [hrest] at hT; simp [Except.map] at hT
        | ok T' => exact ih ph hmem T' hrest
      | plist u =>
        simp only [checkTags] at hT
        cases hrest : checkTags rest with
        | error e => rw [hrest] at hT; simp [Except.map] at hT
        | ok T' => exact ih ph hmem T' hrest
      | ptuple u =>
        simp only [checkTags] at hT
        cases hrest : checkTags rest with
        | error e => rw [hrest] at hT; simp [Except.map] at hT
        | ok T' => exact ih ph hmem T' hrest

theorem initChat_pother (σ : Type) (STATES : List String) (TAGSraw : List (String × PyVal))
    (oe : String → Option (σ → Except Err String))
    (rf : String → Option (σ → String → (String → Nat) → HandlerOut σ))
    (fins : String → Option (σ → Except Err String))
    (default_state : String) (scr : σ) (ph : String)
    (hmem : (ph, PyVal.pother) ∈ dictOfList TAGSraw) :
    ∀ res, initChat σ STATES TAGSraw oe rf fins default_state scr ≠ Except.ok res := by
  intro res hok
  unfold initChat at hok
  simp only [Bind.bind, Except.bind] at hok
  split at hok
  · cases hct : checkTags (dictOfList TAGSraw) with
    | error e => rw [hct] at hok; simp at hok
    | ok T => exact checkTags_pother _ ph hmem T hct
  · split at hok
    · simp at hok
    · cases hct : checkTags (dictOfList TAGSraw) with
      | error e => rw [hct] at hok; simp at hok
      | ok T => exact checkTags_pother _ ph hmem T hct

/-- Claim C1: the construction contract says every respond-from function
terminates through `go_to_state` or `finish`; `respond_from_identified_drug`
of `teendrugbot` does not — in state `identified_drug` with drug
`alcohol`, the message `thanks` makes it return `self.finish_thanks()`
directly, so `respond` returns the finish text while the state stays
`identified_drug` instead of being reset to the default `waiting`. -/
theorem C1_respond_from_identified_drug_no_transition :
    respond (tdBot "identified_drug" "alcohol") "thanks"
      = Except.ok (tdBot "identified_drug" "alcohol", td_finish_thanks)
    ∧ (tdBot "identified_drug" "alcohol").state = "identified_drug"
    ∧ (tdBot "identified_drug" "alcohol").default_state = "waiting" := by
  set_option maxRecDepth 100000 in
  exact ⟨rfl, rfl, rfl⟩

/-- Claim C2: phrase keys are interpolated into the regex unescaped, so a
metacharacter phrase is interpreted as a pattern fragment: phrase `c.t`
matches message `cat` (count 1) although `c.t` does not occur literally. -/
theorem C2_unescaped_phrase_wildcard_match :
    getTags [("c.t", ["x"])] "cat" "x" = 1
    ∧ occursIn (strLower "c.t") (strLower "cat") = false :=
  ⟨by decide, by decide⟩

/-- Claim C3 counterexample: the phrase `no` occurs whole-word at two
distinct positions of `no no`, yet its tag is counted once, not twice —
`re.search` is used as a boolean, matching is per phrase, not per
occurrence. -/
theorem C3_counterexample_repeated_occurrences_counted_once :
    getTags [("no", ["no"])] "no no" "no" = 1
    ∧ getTags [("no", ["no"])] "no no" "no" ≠ 2
    ∧ ((List.range ((strLower "no no").length + 1)).filter
        (fun i => wholeWordAt (strLower "no") (strLower "no no") i)).length = 2 :=
  ⟨by decide, by decide, by decide⟩

/-- Claim C3 as amended: the count of a tag is the sum, over the phrases
whose pattern is found at least once in the lowered message, of the tag's
multiplicity in that phrase's tag list — each matching phrase contributes
exactly once however many occurrence positions it has. -/
theorem C3_per_phrase_single_contribution (TAGS : List (String × List String))
    (message t : String) :
    getTags TAGS message t
      = ((TAGS.filter (fun pt => phraseFound pt.1 (strLower message))).map
          (fun pt => pt.2.count t)).sum := by
  simpa [getTags] using foldl_counter (strLower message) t TAGS (fun _ => 0)

/-- Claim C4: for every session and manner, `finish` with a registered
producer returns the producer's text and resets the current state to the
default state; an unregistered manner fails with the fatal
`UnknownFinishManner` error (no updated session is produced). -/
theorem C4_finish_contract (σ : Type) (b : Chat σ) (manner : String) :
    (∀ f r, b.finishers manner = some f → f b.scratch = Except.ok r →
      finish b manner = Except.ok ({ b with state := b.default_state }, r))
    ∧ (b.finishers manner = none →
      finish b manner = Except.error (Err.unknownFinishManner manner)) := by
  constructor
  · intro f r hf hr
    unfold finish
    rw [hf]
    dsimp only
    rw [hr]
    rfl
  · intro hf
    unfold finish
    rw [hf]

theorem C4_finish_contract_witness :
    finish (csBot "specific_faculty" (some "kathryn") none) "thanks"
      = Except.ok ({ csBot "specific_faculty" (some "kathryn") none with state := "waiting" },
          "You're welcome!") :=
  (C4_finish_contract CsScratch (csBot "specific_faculty" (some "kathryn") none) "thanks").1
    (fun _ => Except.ok "You're welcome!") "You're welcome!" rfl rfl

/-- Claim C5: `go_to_state` fails with the fatal `UnknownState` error for
a name outside the State Set, fails with the fatal `InvalidTransition`
error for the default state when it is declared, and otherwise runs the
on-enter producer, sets the current state to the name and returns the
text; the failing cases produce no updated session. -/
theorem C5_go_to_state_contract (σ : Type) (b : Chat σ) (name : String) :
    (b.STATES.contains name = false →
      go_to_state b name = Except.error (Err.unknownState name))
    ∧ (b.STATES.contains name = true → name = b.default_state →
      go_to_state b name = Except.error (Err.invalidTransition name))
    ∧ (∀ f r, b.STATES.contains name = true → name ≠ b.default_state →
      b.onEnter name = some f → f b.scratch = Except.ok r →
      go_to_state b name = Except.ok ({ b with state := name }, r)) := by
  refine ⟨?_, ?_, ?_⟩
  · intro h
    unfold go_to_state
    rw [if_pos (show (!(b.STATES.contains name)) = true by rw [h]; rfl)]
  · intro h1 h2
    unfold go_to_state
    rw [if_neg (show ¬((!(b.STATES.contains name)) = true) by rw [h1]; simp)]
    rw [if_pos (show (name == b.default_state) = true by rw [h2]; exact beq_self_eq_true _)]
  · intro f r h1 h2 h3 h4
    unfold go_to_state
    rw [if_neg (show ¬((!(b.STATES.contains name)) = true) by rw [h1]; simp)]
    rw [if_neg (show ¬((name == b.default_state) = true) by simpa using h2)]
    rw [h3]
    dsimp only
    rw [h4]
    rfl

theorem C5_go_to_state_contract_witness :
    go_to_state (csBot "waiting" none none) "specific_faculty"
      = Except.error (Err.unknownState "specific_faculty")
    ∧ go_to_state (csBot "waiting" none none) "failing"
      = Except.ok ({ csBot "waiting" none none with state := "failing" },
          "Which course are you currently failing?") :=
  ⟨(C5_go_to_state_contract CsScratch (csBot "waiting" none none) "specific_faculty").1 (by decide),
   (C5_go_to_state_contract CsScratch (csBot "waiting" none none) "failing").2.2
     (fun _ => Except.ok "Which course are you currently failing?")
     "Which course are you currently failing?" (by decide) (by decide) rfl rfl⟩

/-- Claim C6: a bare-string TAGS value is observably equivalent to the
singleton list of that tag; list and tuple values pass through unchanged
and a bare string becomes the singleton; a value of any other shape makes
`_check_tags` — and hence construction — fail with the fatal
`InvalidTagShape` error. -/
theorem C6_check_tags_contract :
    (∀ (l₁ l₂ : List (String × PyVal)) (ph s : String),
      checkTags (l₁ ++ (ph, PyVal.pstr s) :: l₂)
        = checkTags (l₁ ++ (ph, PyVal.plist [s]) :: l₂))
    ∧ (∀ (l : List (String × PyVal)) (T : List (String × List String)),
        checkTags l = Except.ok T →
        ∀ (i : Nat) (ph s : String), l[i]? = some (ph, PyVal.pstr s) →
          T[i]? = some (ph, [s]))
    ∧ (∀ (l : List (String × PyVal)) (T : List (String × List String)),
        checkTags l = Except.ok T →
        ∀ (i : Nat) (ph : String) (ts : List String), l[i]? = some (ph, PyVal.plist ts) →
          T[i]? = some (ph, ts))
    ∧ (∀ (l : List (String × PyVal)) (T : List (String × List String)),
        checkTags l = Except.ok T →
        ∀ (i : Nat) (ph : String) (ts : List String), l[i]? = some (ph, PyVal.ptuple ts) →
          T[i]? = some (ph, ts))
    ∧ (∀ (l : List (String × PyVal)) (ph : String), (ph, PyVal.pother) ∈ l →
        ∀ T, checkTags l ≠ Except.ok T)
    ∧ (∀ (σ : Type) (STATES : List String) (TAGSraw : List (String × PyVal))
        (oe : String → Option (σ → Except Err String))
        (rf : String → Option (σ → String → (String → Nat) → HandlerOut σ))
        (fins : String → Option (σ → Except Err String))
        (default_state : String) (scr : σ) (ph : String),
        (ph, PyVal.pother) ∈ dictOfList TAGSraw →
        ∀ res, initChat σ STATES TAGSraw oe rf fins default_state scr ≠ Except.ok res) := by
  refine ⟨?_, ?_, ?_, ?_, checkTags_pother, initChat_pother⟩
  · intro l₁
    induction l₁ with
    | nil => intro l₂ ph s; rfl
    | cons pv l₁ ih =>
      intro l₂ ph s
      obtain ⟨p, w⟩ := pv
      cases w <;> simp [checkTags, ih l₂ ph s]
  · intro l T hT i ph s hl
    obtain ⟨ts, h1, h2⟩ := checkTags_get l T hT i ph (PyVal.pstr s) hl
    simp only [normTag, Option.some.injEq] at h1
    rw [h1]; exact h2
  · intro l T hT i ph ts hl
    obtain ⟨ts', h1, h2⟩ := checkTags_get l T hT i ph (PyVal.plist ts) hl
    simp only [normTag, Option.some.injEq] at h1
    rw [h1]; exact h2
  · intro l T hT i ph ts hl
    obtain ⟨ts', h1, h2⟩ := checkTags_get l T hT i ph (PyVal.ptuple ts) hl
    simp only [normTag, Option.some.injEq] at h1
    rw [h1]; exact h2

theorem C6_check_tags_contract_witness :
    checkTags [("office hours", PyVal.pstr "office-hours")]
      = checkTags [("office hours", PyVal.plist ["office-hours"])]
    ∧ checkTags [("p", PyVal.pother)] ≠ Except.ok [] :=
  ⟨C6_check_tags_contract.1 [] [] "office hours" "office-hours",
   C6_check_tags_contract.2.2.2.2.1 [("p", PyVal.pother)] "p" (by simp) []⟩

/-- Claim C7: `_get_tags` is pure — it returns its receiver unchanged,
its counter depends only on the TAGS table and the message (so identical
inputs give identical counts), and a repeated call on the same inputs
returns the same counter. -/
theorem C7_get_tags_pure (σ : Type) (b₁ b₂ : Chat σ) (m : String) (h : b₁.TAGS = b₂.TAGS) :
    (get_tags_method b₁ m).1 = b₁
    ∧ (get_tags_method b₁ m).2 = (get_tags_method b₂ m).2
    ∧ (get_tags_method ((get_tags_method b₁ m).1) m).2 = (get_tags_method b₁ m).2 := by
  refine ⟨rfl, ?_, rfl⟩
  simp [get_tags_method, h]

theorem C7_get_tags_pure_witness :
    (get_tags_method (csBot "waiting" none none) "office hours").1 = csBot "waiting" none none
    ∧ (get_tags_method (csBot "waiting" none none) "office hours").2
      = (get_tags_method (csBot "failing" (some "jeff") none) "office hours").2
    ∧ (get_tags_method ((get_tags_method (csBot "waiting" none none) "office hours").1)
        "office hours").2
      = (get_tags_method (csBot "waiting" none none) "office hours").2 :=
  C7_get_tags_pure CsScratch (csBot "waiting" none none)
    (csBot "failing" (some "jeff") none) "office hours" rfl

/-- Claim C8 counterexample: the table phrase `thanks!` does not match the
message consisting of exactly that phrase (the trailing `!` is not a word
character, so the closing `\b` fails), although the phrase occurs as the
entire message — so matching is not "occurrence bounded by non-word
characters or string edges" for every phrase. -/
theorem C8_counterexample_nonword_edge_phrase :
    getTags [("thanks!", ["thanks"])] "thanks!" "thanks" = 0
    ∧ occursIn (strLower "thanks!") (strLower "thanks!") = true :=
  ⟨by decide, by decide⟩

/-- Claim C8 as amended: for a phrase without regex metacharacters whose
first and last characters are word characters, the pattern is found in
the lowered message exactly when the phrase has a whole-word occurrence —
one bounded by non-word characters or string edges (so such a phrase
inside a larger word never matches, and at the start, middle, end, or as
the entire message it does); and the empty message yields empty counts. -/
theorem C8_whole_word_characterization :
    (∀ (p m : String) (c d : Char),
      metaFree (strLower p) = true →
      (strLower p).head? = some c → isWordChar c = true →
      (strLower p).getLast? = some d → isWordChar d = true →
      (phraseFound p (strLower m) = true ↔ wholeWordOccurs (strLower p) (strLower m) = true))
    ∧ (∀ (TAGS : List (String × List String)) (t : String), getTags TAGS "" t = 0) := by
  constructor
  · intro p m c d hm hh hc hl hd
    unfold phraseFound
    rw [search_wb_pattern (strLower p) (strLower m) c d hm hh hc hl hd]
  · intro TAGS t
    have h := foldl_counter (strLower "") t TAGS (fun _ => 0)
    simp only [getTags]
    rw [h]
    have hnil : strLower "" = [] := rfl
    rw [hnil]
    simp [phraseFound_nil_msg]

theorem C8_whole_word_characterization_witness :
    (phraseFound "no" (strLower "I know") = true
      ↔ wholeWordOccurs (strLower "no") (strLower "I know") = true)
    ∧ getTags [("no", ["no"])] "" "no" = 0 :=
  ⟨C8_whole_word_characterization.1 "no" "I know" 'n' 'o'
      (by decide) (by decide) (by decide) (by decide) (by decide),
   C8_whole_word_characterization.2 [("no", ["no"])] "no"⟩

/-- Claim C9 counterexample: with an empty State Set (the base class
default `STATES = []`), a default state that is not declared makes the
warning's `self.STATES[0]` raise `IndexError`, so construction fails
instead of succeeding with a warning. -/
theorem C9_counterexample_empty_states :
    initChat Unit [] [] (fun _ => none) (fun _ => none) (fun _ => none) "waiting" ()
      = Except.error Err.indexError := rfl

/-- Claim C9 as amended: for every NON-EMPTY State Set and well-formed
TAGS table, a default state outside the State Set makes construction
succeed, with the first emitted warning naming the first declared state
as the likely-intended default, and the engine starts in the given
default state. -/
theorem C9_default_warning_construction (σ : Type) (s0 : String) (rest : List String)
    (TAGSraw : List (String × PyVal))
    (oe : String → Option (σ → Except Err String))
    (rf : String → Option (σ → String → (String → Nat) → HandlerOut σ))
    (fins : String → Option (σ → Except Err String))
    (default_state : String) (scr : σ) (T : List (String × List String))
    (hmem : (s0 :: rest).contains default_state = false)
    (htags : checkTags (dictOfList TAGSraw) = Except.ok T) :
    initChat σ (s0 :: rest) TAGSraw oe rf fins default_state scr
      = Except.ok
        ({ STATES := s0 :: rest, TAGS := T, default_state := default_state,
           state := default_state, scratch := scr, onEnter := oe,
           respondFrom := rf, finishers := fins },
         defaultWarning default_state s0
           :: checkStatesWarnings (s0 :: rest) default_state
               (fun s => (oe s).isSome) (fun s => (rf s).isSome)) := by
  unfold initChat
  simp only [Bind.bind, Except.bind, hmem, Bool.false_eq_true, if_false, htags]
  rfl

theorem C9_default_warning_construction_witness :
    initChat Unit ["a"] [] (fun _ => none) (fun _ => none) (fun _ => none) "x" ()
      = Except.ok
        ({ STATES := ["a"], TAGS := [], default_state := "x", state := "x",
           scratch := (), onEnter := fun _ => none, respondFrom := fun _ => none,
           finishers := fun _ => none },
         defaultWarning "x" "a"
           :: checkStatesWarnings ["a"] "x" (fun _ => false) (fun _ => false)) :=
  C9_default_warning_construction Unit "a" [] [] (fun _ => none) (fun _ => none)
    (fun _ => none) "x" () [] (by decide) rfl

/-- Claim C10: in the default `waiting` state, an ordinary message whose
tags include `office-hours` makes `respond` raise the fatal unknown-state
error instead of returning a string: the decision function transitions to
`specific_faculty` (professor recognized) or `unknown_faculty` (not
recognized), and neither these nor `unrecognized_faculty` is a member of
the declared STATES list, so the membership assertion of `go_to_state`
fails. -/
theorem C10_undeclared_states_fatal :
    respond (csBot "waiting" none none) "office hours"
      = Except.error (Err.unknownState "unknown_faculty")
    ∧ respond (csBot "waiting" none none) "kathryn office hours"
      = Except.error (Err.unknownState "specific_faculty")
    ∧ csSTATES.contains "specific_faculty" = false
    ∧ csSTATES.contains "unknown_faculty" = false
    ∧ csSTATES.contains "unrecognized_faculty" = false := by
  set_option maxRecDepth 100000 in
  exact ⟨rfl, rfl, by decide, by decide, by decide⟩
